import Mathlib

/-!
Verification of the BLMID validation engine
(`BLMID_Validator/blmid_validator/validator.py`, with the reference-sheet
lookups of `excel_handler.py` and the coordinate lookup of `database.py`).

Embedding conventions:
* Python floats (coordinates, tolerances) are embedded as rationals `ℚ`;
  all comparisons in the source are order/absolute-value comparisons that
  carry over verbatim.
* Python `Optional[...]` values are `Option ...`; Python truthiness of an
  optional string (`if extracted_blmid:`) is `strTruthy` (absent and the
  empty string are falsy).
* The lookup dictionaries `{"blmid": ..., "latitude": ..., "longitude": ...}`
  returned by `ExcelHandler.find_by_blmid`, `ExcelHandler.find_by_coordinates`
  and `*.find_by_coordinates` on the database side are the record `BlmRecord`.
* `validate_coordinates` has an `isinstance` branch rejecting present but
  non-numeric coordinates; since coordinates are embedded as `Option ℚ`,
  a present coordinate is always numeric and that branch is vacuous here.
* The loaded reference spreadsheet (`ExcelHandler.df`) is embedded as a
  list of rows `List BlmRecord` in sheet order; pandas boolean-mask
  filtering followed by `.iloc[0]` is first-match search in row order.
* `batch_validate` passes its `excel_handler` / `database_connector`
  collaborators by duck typing; they are embedded as the function
  parameters `fb` (find_by_blmid) and `fc` (find_by_coordinates).
  Python exceptions raised by a collaborator are modelled by a second
  embedding (`processEntryE`, `batch_validateE`) whose collaborators
  return `Except String _`; the pure embedding corresponds to runs in
  which every collaborator call returns normally.
-/

/-- Embedding of the lookup-result dictionaries with keys
`blmid`, `latitude`, `longitude` (excel_handler.py lines 144-148 and 176-180,
database.py lines 96-100 and MockDatabase records). -/
structure BlmRecord where
  blmid : String
  latitude : ℚ
  longitude : ℚ
deriving DecidableEq, Repr

/-- Embedding of the dataclass `ValidationResult` (validator.py lines 13-29). -/
structure ValidationResult where
  pdf_file : String
  blmid : Option String
  latitude : Option ℚ
  longitude : Option ℚ
  excel_match : Bool
  database_match : Bool
  correct_blmid : Option String
  correction_needed : Bool
  errors : List String
  warnings : List String
deriving DecidableEq, Repr

/-- The three decision statuses the batch classification distinguishes
(spec: VALID / CORRECTED / FAILED). -/
inductive Status where
  | valid
  | corrected
  | failed
deriving DecidableEq, Repr

/-- One element of the `pdf_extractions` input list of `batch_validate`
(validator.py lines 218-223; the `.get` defaults are the field defaults). -/
structure Extraction where
  pdf_file : String := "unknown"
  blmid : Option String := Option.none
  latitude : Option ℚ := Option.none
  longitude : Option ℚ := Option.none
  errors : List String := []
deriving DecidableEq, Repr

/-- One entry of the corrections ledger (validator.py lines 255-261). -/
structure Correction where
  Original_Entry : Option String
  Corrected_BLMID : Option String
  Latitude : Option ℚ
  Longitude : Option ℚ
  Source_PDF : String
deriving DecidableEq, Repr

/-- The summary dictionary built by `batch_validate`
(validator.py lines 210-216 and 265). -/
structure Summary where
  total_processed : Nat
  valid_entries : Nat
  corrected_entries : Nat
  failed_extractions : Nat
  corrections : List Correction
  results : List ValidationResult
deriving DecidableEq, Repr

/-- Python truthiness of an optional string: `None` and `""` are falsy. -/
def strTruthy : Option String → Bool
  | Option.none => false
  | some s => !s.isEmpty

/-- Python `str(...)` rendering of an optional string inside an f-string
(`None` prints as "None"). Only used in warning texts. -/
def optStr : Option String → String
  | Option.none => "None"
  | some s => s

/-- Embedding of Python `str.upper()` as used on the ASCII BLMID strings:
uppercase every character. (`String.mk` over the character list keeps the
function kernel-reducible.) -/
def pyUpper (s : String) : String := String.mk (s.data.map Char.toUpper)

/-- Embedding of the `Validator` configuration (validator.py lines 35-60);
field defaults are the constructor defaults. `check_duplicates` is stored
but never read by the validation logic, exactly as in the source. -/
structure Validator where
  coordinate_tolerance : ℚ := 1 / 10000
  latitude_min : ℚ := -90
  latitude_max : ℚ := 90
  longitude_min : ℚ := -180
  longitude_max : ℚ := 180
  check_duplicates : Bool := true
deriving DecidableEq, Repr

/-- The latitude error messages of `validate_coordinates`
(validator.py lines 77-84). -/
def Validator.latitudeErrors (v : Validator) (latitude : Option ℚ) : List String :=
  match latitude with
  | Option.none => ["Latitude is None"]
  | some lat =>
    if lat < v.latitude_min ∨ lat > v.latitude_max then
      ["Latitude " ++ toString lat ++ " out of range [" ++ toString v.latitude_min ++
        ", " ++ toString v.latitude_max ++ "]"]
    else []

/-- The longitude error messages of `validate_coordinates`
(validator.py lines 86-93). -/
def Validator.longitudeErrors (v : Validator) (longitude : Option ℚ) : List String :=
  match longitude with
  | Option.none => ["Longitude is None"]
  | some lon =>
    if lon < v.longitude_min ∨ lon > v.longitude_max then
      ["Longitude " ++ toString lon ++ " out of range [" ++ toString v.longitude_min ++
        ", " ++ toString v.longitude_max ++ "]"]
    else []

/-- Embedding of `Validator.validate_coordinates` (validator.py lines 62-95):
collects latitude errors then longitude errors, returns
`(len(errors) == 0, errors)`. -/
def Validator.validate_coordinates (v : Validator) (latitude longitude : Option ℚ) :
    Bool × List String :=
  let errors := v.latitudeErrors latitude ++ v.longitudeErrors longitude
  (errors.isEmpty, errors)

/-- Embedding of `Validator.check_coordinates_match` (validator.py lines 97-113). -/
def Validator.check_coordinates_match (v : Validator) (lat1 lon1 lat2 lon2 : ℚ) : Bool :=
  decide (|lat1 - lat2| ≤ v.coordinate_tolerance) &&
    decide (|lon1 - lon2| ≤ v.coordinate_tolerance)

/-- The Excel block of `validate_entry` (validator.py lines 161-176): when an
excel lookup result is present, either set `excel_match` (coordinates within
tolerance) or append a warning. -/
def Validator.applyExcel (v : Validator) (lat lon : ℚ) (extracted_blmid : Option String)
    (excel_lookup_result : Option BlmRecord) (r : ValidationResult) : ValidationResult :=
  match excel_lookup_result with
  | some ex =>
    if v.check_coordinates_match lat lon ex.latitude ex.longitude then
      { r with excel_match := true }
    else
      { r with warnings := r.warnings ++
          ["BLMID " ++ optStr extracted_blmid ++ " in Excel but coordinates don\x27t match"] }
  | Option.none => r

/-- The error string appended when the database lookup is absent
(validator.py line 188). -/
def dbMissingMsg : String := "No matching BLMID found in database for these coordinates"

/-- The database block of `validate_entry` (validator.py lines 178-188): a
present database result sets `database_match` and, when an extracted BLMID is
truthy and disagrees case-insensitively, flags a correction; an absent result
appends the missing-BLMID error. -/
def Validator.applyDatabase (extracted_blmid : Option String)
    (database_lookup_result : Option BlmRecord) (r : ValidationResult) : ValidationResult :=
  match database_lookup_result with
  | some rec =>
    let r := { r with database_match := true }
    if strTruthy extracted_blmid && pyUpper rec.blmid != pyUpper (extracted_blmid.getD "") then
      { r with correction_needed := true, correct_blmid := some rec.blmid }
    else r
  | Option.none => { r with errors := r.errors ++ [dbMissingMsg] }

/-- Embedding of `Validator.validate_entry` (validator.py lines 115-190).
The coordinate gate returns early before either lookup block; after the gate
both coordinates are present, so `Option.getD 0` never takes its default. -/
def Validator.validate_entry (v : Validator) (pdf_file : String)
    (extracted_blmid : Option String) (extracted_latitude extracted_longitude : Option ℚ)
    (excel_lookup_result database_lookup_result : Option BlmRecord)
    (pdf_extraction_errors : List String) : ValidationResult :=
  let result : ValidationResult :=
    { pdf_file := pdf_file
      blmid := extracted_blmid
      latitude := extracted_latitude
      longitude := extracted_longitude
      excel_match := false
      database_match := false
      correct_blmid := extracted_blmid
      correction_needed := false
      errors := pdf_extraction_errors
      warnings := [] }
  let cv := v.validate_coordinates extracted_latitude extracted_longitude
  if !cv.1 then
    { result with errors := result.errors ++ cv.2 }
  else
    Validator.applyDatabase extracted_blmid database_lookup_result
      (v.applyExcel (extracted_latitude.getD 0) (extracted_longitude.getD 0)
        extracted_blmid excel_lookup_result result)

/-- Embedding of `ExcelHandler.find_by_blmid` (excel_handler.py lines 128-149)
on a loaded sheet: first row whose BLMID equals the query case-insensitively. -/
def ExcelHandler.find_by_blmid (df : List BlmRecord) (blmid : String) : Option BlmRecord :=
  df.find? (fun row => pyUpper row.blmid == pyUpper blmid)

/-- Embedding of `ExcelHandler.find_by_coordinates` (excel_handler.py lines
151-181) on a loaded sheet: first row whose coordinates are within tolerance
on both axes. -/
def ExcelHandler.find_by_coordinates (df : List BlmRecord)
    (latitude longitude tolerance : ℚ) : Option BlmRecord :=
  df.find? (fun row =>
    decide (|row.latitude - latitude| ≤ tolerance) &&
      decide (|row.longitude - longitude| ≤ tolerance))

/-- Embedding of `MockDatabase.find_by_coordinates` (database.py lines
204-214): first stored record within tolerance on both axes. -/
def MockDatabase.find_by_coordinates (records : List BlmRecord)
    (latitude longitude tolerance : ℚ) : Option BlmRecord :=
  records.find? (fun record =>
    decide (|record.latitude - latitude| ≤ tolerance) &&
      decide (|record.longitude - longitude| ≤ tolerance))

/-- The status `batch_validate` assigns to one validation result
(validator.py lines 250-263): a non-empty error list is FAILED, otherwise a
flagged correction is CORRECTED, otherwise VALID. -/
def decisionStatus (validation : ValidationResult) : Status :=
  if !validation.errors.isEmpty then Status.failed
  else if validation.correction_needed then Status.corrected
  else Status.valid

/-- The summary-update step of `batch_validate` (validator.py lines 250-263):
exactly one of the three counters is incremented, and a CORRECTED decision
appends one ledger entry. -/
def updateSummary (s : Summary) (validation : ValidationResult) : Summary :=
  if !validation.errors.isEmpty then
    { s with failed_extractions := s.failed_extractions + 1 }
  else if validation.correction_needed then
    { s with corrected_entries := s.corrected_entries + 1
             corrections := s.corrections ++
               [{ Original_Entry := validation.blmid
                  Corrected_BLMID := validation.correct_blmid
                  Latitude := validation.latitude
                  Longitude := validation.longitude
                  Source_PDF := validation.pdf_file }] }
  else
    { s with valid_entries := s.valid_entries + 1 }

/-- The per-entry body of the `batch_validate` loop (validator.py lines
218-246): excel lookup only for a truthy BLMID, database lookup only when
both coordinates are present, then `validate_entry`. -/
def Validator.processEntry (v : Validator) (fb : String → Option BlmRecord)
    (fc : ℚ → ℚ → ℚ → Option BlmRecord) (extraction : Extraction) : ValidationResult :=
  let excel_result :=
    if strTruthy extraction.blmid then fb (extraction.blmid.getD "") else Option.none
  let database_result :=
    match extraction.latitude, extraction.longitude with
    | some lat, some lon => fc lat lon v.coordinate_tolerance
    | _, _ => Option.none
  v.validate_entry extraction.pdf_file extraction.blmid extraction.latitude
    extraction.longitude excel_result database_result extraction.errors

/-- One iteration of the `batch_validate` loop: append the validation result
and update the summary counters (validator.py lines 248-263; the source keeps
`results` in a separate list merged into the summary at line 265, which is
observationally the same). -/
def Validator.batchStep (v : Validator) (fb : String → Option BlmRecord)
    (fc : ℚ → ℚ → ℚ → Option BlmRecord) (s : Summary) (extraction : Extraction) : Summary :=
  let validation := v.processEntry fb fc extraction
  updateSummary { s with results := s.results ++ [validation] } validation

/-- Embedding of `Validator.batch_validate` (validator.py lines 192-266) for
runs in which every collaborator call returns normally. -/
def Validator.batch_validate (v : Validator) (fb : String → Option BlmRecord)
    (fc : ℚ → ℚ → ℚ → Option BlmRecord) (pdf_extractions : List Extraction) : Summary :=
  pdf_extractions.foldl (v.batchStep fb fc)
    { total_processed := pdf_extractions.length
      valid_entries := 0
      corrected_entries := 0
      failed_extractions := 0
      corrections := []
      results := [] }

/-- The per-entry body of the `batch_validate` loop with collaborators that
may raise: a raised exception is `Except.error`, and since the loop body has
no handler (validator.py lines 218-246 contain no try/except) the exception
propagates. -/
def Validator.processEntryE (v : Validator)
    (fb : String → Except String (Option BlmRecord))
    (fc : ℚ → ℚ → ℚ → Except String (Option BlmRecord)) (extraction : Extraction) :
    Except String ValidationResult := do
  let excel_result ←
    if strTruthy extraction.blmid then fb (extraction.blmid.getD "") else pure Option.none
  let database_result ←
    match extraction.latitude, extraction.longitude with
    | some lat, some lon => fc lat lon v.coordinate_tolerance
    | _, _ => pure Option.none
  pure (v.validate_entry extraction.pdf_file extraction.blmid extraction.latitude
    extraction.longitude excel_result database_result extraction.errors)

/-- The `batch_validate` loop with collaborators that may raise: the first
exception aborts the remaining iterations, as an uncaught Python exception
does. -/
def Validator.batchLoopE (v : Validator)
    (fb : String → Except String (Option BlmRecord))
    (fc : ℚ → ℚ → ℚ → Except String (Option BlmRecord)) (s : Summary) :
    List Extraction → Except String Summary
  | [] => Except.ok s
  | extraction :: rest =>
    match v.processEntryE fb fc extraction with
    | Except.error e => Except.error e
    | Except.ok validation =>
      v.batchLoopE fb fc
        (updateSummary { s with results := s.results ++ [validation] } validation) rest

/-- Embedding of `Validator.batch_validate` with collaborators that may
raise: either the completed summary, or the first uncaught exception. -/
def Validator.batch_validateE (v : Validator)
    (fb : String → Except String (Option BlmRecord))
    (fc : ℚ → ℚ → ℚ → Except String (Option BlmRecord))
    (pdf_extractions : List Extraction) : Except String Summary :=
  v.batchLoopE fb fc
    { total_processed := pdf_extractions.length
      valid_entries := 0
      corrected_entries := 0
      failed_extractions := 0
      corrections := []
      results := [] }
    pdf_extractions

/-! ### Helper lemmas about the per-entry decision -/

theorem applyExcel_errors (v : Validator) (lat lon : ℚ) (b : Option String)
    (ex : Option BlmRecord) (r : ValidationResult) :
    (v.applyExcel lat lon b ex r).errors = r.errors := by
  unfold Validator.applyExcel
  cases ex with
  | none => rfl
  | some e => dsimp only; split <;> rfl

theorem applyExcel_database_match (v : Validator) (lat lon : ℚ) (b : Option String)
    (ex : Option BlmRecord) (r : ValidationResult) :
    (v.applyExcel lat lon b ex r).database_match = r.database_match := by
  unfold Validator.applyExcel
  cases ex with
  | none => rfl
  | some e => dsimp only; split <;> rfl

theorem applyExcel_correction_needed (v : Validator) (lat lon : ℚ) (b : Option String)
    (ex : Option BlmRecord) (r : ValidationResult) :
    (v.applyExcel lat lon b ex r).correction_needed = r.correction_needed := by
  unfold Validator.applyExcel
  cases ex with
  | none => rfl
  | some e => dsimp only; split <;> rfl

theorem applyExcel_correct_blmid (v : Validator) (lat lon : ℚ) (b : Option String)
    (ex : Option BlmRecord) (r : ValidationResult) :
    (v.applyExcel lat lon b ex r).correct_blmid = r.correct_blmid := by
  unfold Validator.applyExcel
  cases ex with
  | none => rfl
  | some e => dsimp only; split <;> rfl

theorem applyExcel_blmid (v : Validator) (lat lon : ℚ) (b : Option String)
    (ex : Option BlmRecord) (r : ValidationResult) :
    (v.applyExcel lat lon b ex r).blmid = r.blmid := by
  unfold Validator.applyExcel
  cases ex with
  | none => rfl
  | some e => dsimp only; split <;> rfl

theorem applyExcel_match_of_tolerance (v : Validator) (lat lon : ℚ) (b : Option String)
    (e : BlmRecord) (r : ValidationResult)
    (h : v.check_coordinates_match lat lon e.latitude e.longitude = true) :
    (v.applyExcel lat lon b (some e) r).excel_match = true := by
  unfold Validator.applyExcel
  simp [h]

theorem applyDatabase_none (b : Option String) (r : ValidationResult) :
    Validator.applyDatabase b Option.none r = { r with errors := r.errors ++ [dbMissingMsg] } := rfl

theorem applyDatabase_some_corrects (b : Option String) (rec : BlmRecord)
    (r : ValidationResult)
    (h : (strTruthy b && pyUpper rec.blmid != pyUpper (b.getD "")) = true) :
    Validator.applyDatabase b (some rec) r =
      { r with database_match := true, correction_needed := true,
               correct_blmid := some rec.blmid } := by
  unfold Validator.applyDatabase
  simp [h]

theorem applyDatabase_some_plain (b : Option String) (rec : BlmRecord)
    (r : ValidationResult)
    (h : (strTruthy b && pyUpper rec.blmid != pyUpper (b.getD "")) = false) :
    Validator.applyDatabase b (some rec) r = { r with database_match := true } := by
  unfold Validator.applyDatabase
  simp [h]

theorem validate_coordinates_fst (v : Validator) (lat lon : Option ℚ) :
    (v.validate_coordinates lat lon).1 = (v.validate_coordinates lat lon).2.isEmpty := rfl

theorem validate_coordinates_valid_nil (v : Validator) (lat lon : Option ℚ)
    (h : (v.validate_coordinates lat lon).1 = true) :
    (v.validate_coordinates lat lon).2 = [] := by
  rw [validate_coordinates_fst] at h
  exact List.isEmpty_iff.mp h

theorem validate_coordinates_invalid_ne_nil (v : Validator) (lat lon : Option ℚ)
    (h : (v.validate_coordinates lat lon).1 = false) :
    (v.validate_coordinates lat lon).2 ≠ [] := by
  rw [validate_coordinates_fst] at h
  intro hnil
  rw [hnil] at h
  simp at h

theorem validate_entry_invalid_coords (v : Validator) (pdf : String) (b : Option String)
    (lat lon : Option ℚ) (ex db : Option BlmRecord) (errs : List String)
    (h : (v.validate_coordinates lat lon).1 = false) :
    v.validate_entry pdf b lat lon ex db errs =
      { pdf_file := pdf, blmid := b, latitude := lat, longitude := lon,
        excel_match := false, database_match := false, correct_blmid := b,
        correction_needed := false,
        errors := errs ++ (v.validate_coordinates lat lon).2, warnings := [] } := by
  unfold Validator.validate_entry
  simp [h]

theorem validate_entry_valid_coords (v : Validator) (pdf : String) (b : Option String)
    (lat lon : Option ℚ) (ex db : Option BlmRecord) (errs : List String)
    (h : (v.validate_coordinates lat lon).1 = true) :
    v.validate_entry pdf b lat lon ex db errs =
      Validator.applyDatabase b db
        (v.applyExcel (lat.getD 0) (lon.getD 0) b ex
          { pdf_file := pdf, blmid := b, latitude := lat, longitude := lon,
            excel_match := false, database_match := false, correct_blmid := b,
            correction_needed := false, errors := errs, warnings := [] }) := by
  unfold Validator.validate_entry
  simp [h]

theorem validate_entry_errors_extend (v : Validator) (pdf : String) (b : Option String)
    (lat lon : Option ℚ) (ex db : Option BlmRecord) (errs : List String) :
    ∃ t, (v.validate_entry pdf b lat lon ex db errs).errors = errs ++ t := by
  by_cases h : (v.validate_coordinates lat lon).1 = true
  · rw [validate_entry_valid_coords v pdf b lat lon ex db errs h]
    cases db with
    | none =>
      rw [applyDatabase_none]
      exact ⟨[dbMissingMsg], by rw [applyExcel_errors]⟩
    | some rec =>
      by_cases hc : (strTruthy b && pyUpper rec.blmid != pyUpper (b.getD "")) = true
      · rw [applyDatabase_some_corrects b rec _ hc]
        exact ⟨[], by rw [applyExcel_errors, List.append_nil]⟩
      · rw [applyDatabase_some_plain b rec _ (Bool.eq_false_iff.mpr hc)]
        exact ⟨[], by rw [applyExcel_errors, List.append_nil]⟩
  · rw [validate_entry_invalid_coords v pdf b lat lon ex db errs (Bool.eq_false_iff.mpr h)]
    exact ⟨(v.validate_coordinates lat lon).2, rfl⟩

theorem decisionStatus_failed_iff (r : ValidationResult) :
    decisionStatus r = Status.failed ↔ r.errors ≠ [] := by
  unfold decisionStatus
  by_cases h : r.errors = []
  · simp [h]
    split <;> simp
  · simp [h, List.isEmpty_iff]

theorem decisionStatus_corrected_iff (r : ValidationResult) :
    decisionStatus r = Status.corrected ↔ r.errors = [] ∧ r.correction_needed = true := by
  unfold decisionStatus
  by_cases h : r.errors = []
  · by_cases hc : r.correction_needed = true <;> simp [h, hc]
  · have : r.errors.isEmpty = false := by simp [List.isEmpty_iff, h]
    simp [this, h]

theorem decisionStatus_valid_of (r : ValidationResult) (h1 : r.errors = [])
    (h2 : r.correction_needed = false) : decisionStatus r = Status.valid := by
  unfold decisionStatus
  simp [h1, h2]

theorem updateSummary_results (s : Summary) (val : ValidationResult) :
    (updateSummary s val).results = s.results := by
  unfold updateSummary
  split
  · rfl
  · split <;> rfl

theorem updateSummary_total (s : Summary) (val : ValidationResult) :
    (updateSummary s val).total_processed = s.total_processed := by
  unfold updateSummary
  split
  · rfl
  · split <;> rfl

theorem updateSummary_counts (s : Summary) (val : ValidationResult) :
    (updateSummary s val).valid_entries + (updateSummary s val).corrected_entries +
      (updateSummary s val).failed_extractions =
    s.valid_entries + s.corrected_entries + s.failed_extractions + 1 := by
  unfold updateSummary
  split
  · dsimp only; omega
  · split
    · dsimp only; omega
    · dsimp only; omega

theorem updateSummary_failed (s : Summary) (val : ValidationResult)
    (h : val.errors ≠ []) :
    updateSummary s val = { s with failed_extractions := s.failed_extractions + 1 } := by
  have he : val.errors.isEmpty = false := by simp [List.isEmpty_iff, h]
  unfold updateSummary
  simp [he]

theorem batch_fold_results (v : Validator) (fb : String → Option BlmRecord)
    (fc : ℚ → ℚ → ℚ → Option BlmRecord) (l : List Extraction) : ∀ (s : Summary),
    (l.foldl (v.batchStep fb fc) s).results = s.results ++ l.map (v.processEntry fb fc) := by
  induction l with
  | nil => intro s; simp
  | cons e rest ih =>
    intro s
    rw [List.foldl_cons, List.map_cons, ih]
    unfold Validator.batchStep
    rw [updateSummary_results]
    simp

theorem batch_fold_total (v : Validator) (fb : String → Option BlmRecord)
    (fc : ℚ → ℚ → ℚ → Option BlmRecord) (l : List Extraction) : ∀ (s : Summary),
    (l.foldl (v.batchStep fb fc) s).total_processed = s.total_processed := by
  induction l with
  | nil => intro s; rfl
  | cons e rest ih =>
    intro s
    rw [List.foldl_cons, ih]
    unfold Validator.batchStep
    rw [updateSummary_total]

theorem batch_fold_counts (v : Validator) (fb : String → Option BlmRecord)
    (fc : ℚ → ℚ → ℚ → Option BlmRecord) (l : List Extraction) : ∀ (s : Summary),
    (l.foldl (v.batchStep fb fc) s).valid_entries +
      (l.foldl (v.batchStep fb fc) s).corrected_entries +
      (l.foldl (v.batchStep fb fc) s).failed_extractions =
    s.valid_entries + s.corrected_entries + s.failed_extractions + l.length := by
  induction l with
  | nil => intro s; simp
  | cons e rest ih =>
    intro s
    rw [List.foldl_cons, ih]
    unfold Validator.batchStep
    rw [updateSummary_counts]
    dsimp only
    simp [List.length_cons]
    omega

theorem processEntry_errors_extend (v : Validator) (fb : String → Option BlmRecord)
    (fc : ℚ → ℚ → ℚ → Option BlmRecord) (e : Extraction) :
    ∃ t, (v.processEntry fb fc e).errors = e.errors ++ t := by
  unfold Validator.processEntry
  exact validate_entry_errors_extend v e.pdf_file e.blmid e.latitude e.longitude _ _ e.errors

theorem validate_entry_blmid_echo (v : Validator) (pdf : String) (b : Option String)
    (lat lon : Option ℚ) (ex db : Option BlmRecord) (errs : List String) :
    (v.validate_entry pdf b lat lon ex db errs).blmid = b := by
  by_cases h : (v.validate_coordinates lat lon).1 = true
  · rw [validate_entry_valid_coords v pdf b lat lon ex db errs h]
    cases db with
    | none => rw [applyDatabase_none]; dsimp only; rw [applyExcel_blmid]
    | some rec =>
      by_cases hc : (strTruthy b && pyUpper rec.blmid != pyUpper (b.getD "")) = true
      · rw [applyDatabase_some_corrects _ _ _ hc]; dsimp only; rw [applyExcel_blmid]
      · rw [applyDatabase_some_plain _ _ _ (Bool.eq_false_iff.mpr hc)]
        dsimp only; rw [applyExcel_blmid]
  · rw [validate_entry_invalid_coords v pdf b lat lon ex db errs (Bool.eq_false_iff.mpr h)]

theorem corrected_entry_differs (v : Validator) (pdf : String) (b : Option String)
    (lat lon : Option ℚ) (ex db : Option BlmRecord) (errs : List String)
    (h : decisionStatus (v.validate_entry pdf b lat lon ex db errs) = Status.corrected) :
    ∃ s c, (v.validate_entry pdf b lat lon ex db errs).blmid = some s ∧
      (v.validate_entry pdf b lat lon ex db errs).correct_blmid = some c ∧
      pyUpper c ≠ pyUpper s := by
  rw [decisionStatus_corrected_iff] at h
  obtain ⟨herr, hcorr⟩ := h
  by_cases hcv : (v.validate_coordinates lat lon).1 = true
  · rw [validate_entry_valid_coords v pdf b lat lon ex db errs hcv] at hcorr ⊢
    cases db with
    | none =>
      rw [applyDatabase_none] at hcorr
      dsimp only at hcorr
      rw [applyExcel_correction_needed] at hcorr
      exact absurd hcorr (by simp)
    | some rec =>
      by_cases hc : (strTruthy b && pyUpper rec.blmid != pyUpper (b.getD "")) = true
      · rw [applyDatabase_some_corrects _ _ _ hc]
        dsimp only
        rw [Bool.and_eq_true] at hc
        obtain ⟨hb, hne⟩ := hc
        cases b with
        | none => exact absurd hb (by simp [strTruthy])
        | some s =>
          refine ⟨s, rec.blmid, ?_, rfl, ?_⟩
          · rw [applyExcel_blmid]
          · have : (pyUpper rec.blmid != pyUpper s) = true := hne
            exact bne_iff_ne.mp this
      · rw [applyDatabase_some_plain _ _ _ (Bool.eq_false_iff.mpr hc)] at hcorr
        dsimp only at hcorr
        rw [applyExcel_correction_needed] at hcorr
        exact absurd hcorr (by simp)
  · rw [validate_entry_invalid_coords v pdf b lat lon ex db errs
      (Bool.eq_false_iff.mpr hcv)] at hcorr
    exact absurd hcorr (by simp)

/-! ### Claim theorems -/

/-- Claim C7: for every decision produced by the engine (every element of the
results list of a batch), if its status is CORRECTED then its corrected
identifier is non-null and differs case-insensitively from the entry's input
identifier (which in particular is present). -/
theorem c7_corrected_invariant (v : Validator) (fb : String → Option BlmRecord)
    (fc : ℚ → ℚ → ℚ → Option BlmRecord) (entries : List Extraction)
    (r : ValidationResult) (hr : r ∈ (v.batch_validate fb fc entries).results)
    (hst : decisionStatus r = Status.corrected) :
    ∃ s c, r.blmid = some s ∧ r.correct_blmid = some c ∧ pyUpper c ≠ pyUpper s := by
  unfold Validator.batch_validate at hr
  rw [batch_fold_results] at hr
  simp only [List.nil_append, List.mem_map] at hr
  obtain ⟨e, _, rfl⟩ := hr
  exact corrected_entry_differs v e.pdf_file e.blmid e.latitude e.longitude _ _ e.errors hst

/-- Witness for C7: a singleton batch in which the database proposes BLM007
for an entry extracted as BLM001 yields a CORRECTED decision whose corrected
identifier BLM007 differs case-insensitively from BLM001. -/
theorem c7_corrected_invariant_witness :
    (Validator.processEntry {} (fun _ => Option.none)
        (fun _ _ _ => some ⟨"BLM007", 40, -74⟩)
        { pdf_file := "p.pdf", blmid := some "BLM001",
          latitude := some 40, longitude := some (-74) } ∈
      (Validator.batch_validate {} (fun _ => Option.none)
        (fun _ _ _ => some ⟨"BLM007", 40, -74⟩)
        [{ pdf_file := "p.pdf", blmid := some "BLM001",
           latitude := some 40, longitude := some (-74) }]).results) ∧
    (∃ s c,
      (Validator.processEntry {} (fun _ => Option.none)
        (fun _ _ _ => some ⟨"BLM007", 40, -74⟩)
        { pdf_file := "p.pdf", blmid := some "BLM001",
          latitude := some 40, longitude := some (-74) }).blmid = some s ∧
      (Validator.processEntry {} (fun _ => Option.none)
        (fun _ _ _ => some ⟨"BLM007", 40, -74⟩)
        { pdf_file := "p.pdf", blmid := some "BLM001",
          latitude := some 40, longitude := some (-74) }).correct_blmid = some c ∧
      pyUpper c ≠ pyUpper s) :=
  ⟨by decide,
    c7_corrected_invariant {} (fun _ => Option.none)
      (fun _ _ _ => some ⟨"BLM007", 40, -74⟩)
      [{ pdf_file := "p.pdf", blmid := some "BLM001",
         latitude := some 40, longitude := some (-74) }]
      (Validator.processEntry {} (fun _ => Option.none)
        (fun _ _ _ => some ⟨"BLM007", 40, -74⟩)
        { pdf_file := "p.pdf", blmid := some "BLM001",
          latitude := some 40, longitude := some (-74) })
      (by decide) (by decide)⟩

/-- Claim C8: `batch_validate` yields exactly one decision per input entry and
in input order (the results list is the input list mapped through the
per-entry decision), the decision list has the same length as the input list,
and the valid, corrected and failed counters sum to the total count, which is
the number of input entries. -/
theorem c8_batch_complete (v : Validator) (fb : String → Option BlmRecord)
    (fc : ℚ → ℚ → ℚ → Option BlmRecord) (entries : List Extraction) :
    (v.batch_validate fb fc entries).results = entries.map (v.processEntry fb fc) ∧
    (v.batch_validate fb fc entries).results.length = entries.length ∧
    (v.batch_validate fb fc entries).valid_entries +
      (v.batch_validate fb fc entries).corrected_entries +
      (v.batch_validate fb fc entries).failed_extractions =
      (v.batch_validate fb fc entries).total_processed ∧
    (v.batch_validate fb fc entries).total_processed = entries.length := by
  refine ⟨?_, ?_, ?_, ?_⟩
  · unfold Validator.batch_validate
    rw [batch_fold_results]
    simp
  · unfold Validator.batch_validate
    rw [batch_fold_results]
    simp
  · unfold Validator.batch_validate
    rw [batch_fold_counts, batch_fold_total]
    simp
  · unfold Validator.batch_validate
    rw [batch_fold_total]

/-- Claim C9: an entry carrying upstream extraction errors is classified
FAILED by the batch no matter what the lookups return, and processing it
increments only the failed counter: the corrected counter and the corrections
ledger are left unchanged, so a detected correction for such an entry is
dropped. -/
theorem c9_extraction_errors_fail (v : Validator) (fb : String → Option BlmRecord)
    (fc : ℚ → ℚ → ℚ → Option BlmRecord) (e : Extraction) (s : Summary)
    (h : e.errors ≠ []) :
    decisionStatus (v.processEntry fb fc e) = Status.failed ∧
    (v.batchStep fb fc s e).failed_extractions = s.failed_extractions + 1 ∧
    (v.batchStep fb fc s e).corrected_entries = s.corrected_entries ∧
    (v.batchStep fb fc s e).corrections = s.corrections := by
  obtain ⟨t, ht⟩ := processEntry_errors_extend v fb fc e
  have hne : (v.processEntry fb fc e).errors ≠ [] := by
    rw [ht]
    simp [h]
  refine ⟨(decisionStatus_failed_iff _).mpr hne, ?_, ?_, ?_⟩ <;>
    (unfold Validator.batchStep
     rw [updateSummary_failed _ _ hne])

/-- Witness for C9: an entry with extraction error "torn page" whose database
lookup proposes a correction is nonetheless FAILED, and its processing leaves
the corrected counter and the ledger untouched. -/
theorem c9_extraction_errors_fail_witness :
    decisionStatus (Validator.processEntry {} (fun _ => Option.none)
      (fun _ _ _ => some ⟨"BLM007", 40, -74⟩)
      { pdf_file := "p.pdf", blmid := some "BLM001", latitude := some 40,
        longitude := some (-74), errors := ["torn page"] }) = Status.failed ∧
    (Validator.batchStep {} (fun _ => Option.none)
      (fun _ _ _ => some ⟨"BLM007", 40, -74⟩)
      { total_processed := 1, valid_entries := 0, corrected_entries := 0,
        failed_extractions := 0, corrections := [], results := [] }
      { pdf_file := "p.pdf", blmid := some "BLM001", latitude := some 40,
        longitude := some (-74), errors := ["torn page"] }).failed_extractions = 0 + 1 ∧
    (Validator.batchStep {} (fun _ => Option.none)
      (fun _ _ _ => some ⟨"BLM007", 40, -74⟩)
      { total_processed := 1, valid_entries := 0, corrected_entries := 0,
        failed_extractions := 0, corrections := [], results := [] }
      { pdf_file := "p.pdf", blmid := some "BLM001", latitude := some 40,
        longitude := some (-74), errors := ["torn page"] }).corrected_entries = 0 ∧
    (Validator.batchStep {} (fun _ => Option.none)
      (fun _ _ _ => some ⟨"BLM007", 40, -74⟩)
      { total_processed := 1, valid_entries := 0, corrected_entries := 0,
        failed_extractions := 0, corrections := [], results := [] }
      { pdf_file := "p.pdf", blmid := some "BLM001", latitude := some 40,
        longitude := some (-74), errors := ["torn page"] }).corrections = [] :=
  c9_extraction_errors_fail {} (fun _ => Option.none)
    (fun _ _ _ => some ⟨"BLM007", 40, -74⟩)
    { pdf_file := "p.pdf", blmid := some "BLM001", latitude := some 40,
      longitude := some (-74), errors := ["torn page"] }
    { total_processed := 1, valid_entries := 0, corrected_entries := 0,
      failed_extractions := 0, corrections := [], results := [] }
    (by decide)

/-- Claim C10: an entry whose extracted identifier is absent but whose
coordinates are valid, with no upstream extraction errors and a present
authority (database) record, gets `database_match = true`, no correction
flagged, no corrected identifier proposed, and is classified VALID rather
than corrected to the authority's identifier. -/
theorem c10_absent_identifier_valid (v : Validator) (pdf : String) (lat lon : Option ℚ)
    (ex : Option BlmRecord) (rec : BlmRecord)
    (h : (v.validate_coordinates lat lon).1 = true) :
    (v.validate_entry pdf Option.none lat lon ex (some rec) []).database_match = true ∧
    (v.validate_entry pdf Option.none lat lon ex (some rec) []).correction_needed = false ∧
    (v.validate_entry pdf Option.none lat lon ex (some rec) []).correct_blmid = Option.none ∧
    decisionStatus (v.validate_entry pdf Option.none lat lon ex (some rec) []) =
      Status.valid := by
  rw [validate_entry_valid_coords v pdf Option.none lat lon ex (some rec) [] h]
  rw [applyDatabase_some_plain Option.none rec _ rfl]
  refine ⟨rfl, ?_, ?_, ?_⟩
  · dsimp only
    rw [applyExcel_correction_needed]
  · dsimp only
    rw [applyExcel_correct_blmid]
  · refine decisionStatus_valid_of _ ?_ ?_
    · dsimp only
      rw [applyExcel_errors]
    · dsimp only
      rw [applyExcel_correction_needed]

/-- Witness for C10: an entry with no identifier at (40, -74) whose database
lookup returns BLM007 is VALID with `database_match` set and no correction. -/
theorem c10_absent_identifier_valid_witness :
    (Validator.validate_entry {} "p.pdf" Option.none (some 40) (some (-74))
      Option.none (some ⟨"BLM007", 40, -74⟩) []).database_match = true ∧
    (Validator.validate_entry {} "p.pdf" Option.none (some 40) (some (-74))
      Option.none (some ⟨"BLM007", 40, -74⟩) []).correction_needed = false ∧
    (Validator.validate_entry {} "p.pdf" Option.none (some 40) (some (-74))
      Option.none (some ⟨"BLM007", 40, -74⟩) []).correct_blmid = Option.none ∧
    decisionStatus (Validator.validate_entry {} "p.pdf" Option.none (some 40)
      (some (-74)) Option.none (some ⟨"BLM007", 40, -74⟩) []) = Status.valid :=
  c10_absent_identifier_valid {} "p.pdf" (some 40) (some (-74)) Option.none
    ⟨"BLM007", 40, -74⟩ (by decide)

/-- Counterexample for C1: an entry at (40, -74) extracted as BLM001 whose
excel (reference) lookup is an exact match — same identifier, coordinates
within tolerance — is nonetheless FAILED when the database (authority) lookup
is absent, and CORRECTED when the database proposes BLM009: the reference
exact match does not short-circuit the authority consultation. -/
theorem c1_counterexample :
    (Validator.validate_entry {} "scan.pdf" (some "BLM001") (some 40) (some (-74))
      (some ⟨"BLM001", 40, -74⟩) Option.none []).excel_match = true ∧
    decisionStatus (Validator.validate_entry {} "scan.pdf" (some "BLM001") (some 40)
      (some (-74)) (some ⟨"BLM001", 40, -74⟩) Option.none []) = Status.failed ∧
    decisionStatus (Validator.validate_entry {} "scan.pdf" (some "BLM001") (some 40)
      (some (-74)) (some ⟨"BLM001", 40, -74⟩) (some ⟨"BLM009", 40, -74⟩) []) =
      Status.corrected := by
  have hcv : (Validator.validate_coordinates {} (some 40) (some (-74))).1 = true := by
    decide
  have hmatch : Validator.check_coordinates_match {} 40 (-74) 40 (-74) = true := by
    unfold Validator.check_coordinates_match
    norm_num
  refine ⟨?_, ?_, ?_⟩
  · rw [validate_entry_valid_coords _ _ _ _ _ _ _ _ hcv, applyDatabase_none]
    dsimp only
    simp only [Option.getD_some]
    exact applyExcel_match_of_tolerance _ _ _ _ _ _ hmatch
  · rw [validate_entry_valid_coords _ _ _ _ _ _ _ _ hcv, applyDatabase_none]
    apply (decisionStatus_failed_iff _).mpr
    dsimp only
    rw [applyExcel_errors]
    simp
  · rw [validate_entry_valid_coords _ _ _ _ _ _ _ _ hcv]
    rw [applyDatabase_some_corrects _ _ _ (by decide)]
    apply (decisionStatus_corrected_iff _).mpr
    constructor
    · dsimp only
      rw [applyExcel_errors]
    · rfl

/-- Claim C1 as amended: a reference (excel) exact match sets
`excel_match = true` but does not short-circuit the decision; the authority
(database) lookup still determines the status — FAILED when absent, CORRECTED
when present with a case-insensitively differing identifier against a truthy
extracted identifier, VALID otherwise. -/
theorem c1_reference_exact_sets_flag_authority_decides (v : Validator) (pdf : String)
    (b : Option String) (lat lon : ℚ) (ex : BlmRecord) (db : Option BlmRecord)
    (hcv : (v.validate_coordinates (some lat) (some lon)).1 = true)
    (hex : v.check_coordinates_match lat lon ex.latitude ex.longitude = true) :
    (v.validate_entry pdf b (some lat) (some lon) (some ex) db []).excel_match = true ∧
    decisionStatus (v.validate_entry pdf b (some lat) (some lon) (some ex) db []) =
      (match db with
       | Option.none => Status.failed
       | some rec =>
         if strTruthy b && pyUpper rec.blmid != pyUpper (b.getD "") then Status.corrected
         else Status.valid) := by
  rw [validate_entry_valid_coords _ _ _ _ _ _ _ _ hcv]
  cases db with
  | none =>
    rw [applyDatabase_none]
    constructor
    · dsimp only
      simp only [Option.getD_some]
      exact applyExcel_match_of_tolerance _ _ _ _ _ _ hex
    · apply (decisionStatus_failed_iff _).mpr
      dsimp only
      rw [applyExcel_errors]
      simp
  | some rec =>
    by_cases hc : (strTruthy b && pyUpper rec.blmid != pyUpper (b.getD "")) = true
    · rw [applyDatabase_some_corrects _ _ _ hc]
      refine ⟨?_, ?_⟩
      · dsimp only
        simp only [Option.getD_some]
        exact applyExcel_match_of_tolerance _ _ _ _ _ _ hex
      · dsimp only
        rw [if_pos hc]
        apply (decisionStatus_corrected_iff _).mpr
        refine ⟨?_, rfl⟩
        dsimp only
        rw [applyExcel_errors]
    · rw [applyDatabase_some_plain _ _ _ (Bool.eq_false_iff.mpr hc)]
      refine ⟨?_, ?_⟩
      · dsimp only
        simp only [Option.getD_some]
        exact applyExcel_match_of_tolerance _ _ _ _ _ _ hex
      · dsimp only
        rw [if_neg hc]
        apply decisionStatus_valid_of
        · dsimp only
          rw [applyExcel_errors]
        · dsimp only
          rw [applyExcel_correction_needed]

/-- Witness for amended C1: entry BLM010 at (51, 0) with an exact excel match
and an absent database lookup is FAILED with the excel flag set. -/
theorem c1_reference_exact_sets_flag_authority_decides_witness :
    (Validator.validate_entry {} "w1.pdf" (some "BLM010") (some 51) (some 0)
      (some ⟨"BLM010", 51, 0⟩) Option.none []).excel_match = true ∧
    decisionStatus (Validator.validate_entry {} "w1.pdf" (some "BLM010") (some 51)
      (some 0) (some ⟨"BLM010", 51, 0⟩) Option.none []) = Status.failed :=
  c1_reference_exact_sets_flag_authority_decides {} "w1.pdf" (some "BLM010") 51 0
    ⟨"BLM010", 51, 0⟩ Option.none (by decide)
    (by unfold Validator.check_coordinates_match; norm_num)

/-- Counterexample for C3: an entry with valid coordinates, no reference
match, and a disagreeing authority record (BLM007 vs BLM001) — but carrying
an upstream extraction error — is classified FAILED, not CORRECTED, even
though the correction was detected (`correction_needed` is true). -/
theorem c3_counterexample :
    decisionStatus (Validator.validate_entry {} "scan.pdf" (some "BLM001") (some 40)
      (some (-74)) Option.none (some ⟨"BLM007", 40, -74⟩) ["blurred text"]) =
      Status.failed ∧
    (Validator.validate_entry {} "scan.pdf" (some "BLM001") (some 40) (some (-74))
      Option.none (some ⟨"BLM007", 40, -74⟩) ["blurred text"]).correction_needed =
      true := by
  decide

/-- Claim C3 as amended: for an entry with no upstream extraction errors, a
truthy extracted identifier, valid coordinates, and an authority (database)
record whose identifier differs case-insensitively, the decision is CORRECTED
with `database_match = true` and the corrected identifier equal to the
authority record's identifier (whatever the reference lookup returned). -/
theorem c3_authority_disagreement_corrects (v : Validator) (pdf : String) (s : String)
    (lat lon : Option ℚ) (ex : Option BlmRecord) (rec : BlmRecord)
    (hcv : (v.validate_coordinates lat lon).1 = true)
    (hs : strTruthy (some s) = true)
    (hne : pyUpper rec.blmid ≠ pyUpper s) :
    decisionStatus (v.validate_entry pdf (some s) lat lon ex (some rec) []) =
      Status.corrected ∧
    (v.validate_entry pdf (some s) lat lon ex (some rec) []).database_match = true ∧
    (v.validate_entry pdf (some s) lat lon ex (some rec) []).correct_blmid =
      some rec.blmid := by
  have hc : (strTruthy (some s) && pyUpper rec.blmid != pyUpper ((some s).getD "")) =
      true := by
    simp [hs, bne_iff_ne, hne]
  rw [validate_entry_valid_coords _ _ _ _ _ _ _ _ hcv]
  rw [applyDatabase_some_corrects _ _ _ hc]
  refine ⟨?_, rfl, rfl⟩
  apply (decisionStatus_corrected_iff _).mpr
  refine ⟨?_, rfl⟩
  dsimp only
  rw [applyExcel_errors]

/-- Witness for amended C3: a clean entry extracted as BLM001 at (40, -74)
whose database lookup returns BLM007 is CORRECTED to BLM007. -/
theorem c3_authority_disagreement_corrects_witness :
    decisionStatus (Validator.validate_entry {} "w3.pdf" (some "BLM001") (some 40)
      (some (-74)) Option.none (some ⟨"BLM007", 40, -74⟩) []) = Status.corrected ∧
    (Validator.validate_entry {} "w3.pdf" (some "BLM001") (some 40) (some (-74))
      Option.none (some ⟨"BLM007", 40, -74⟩) []).database_match = true ∧
    (Validator.validate_entry {} "w3.pdf" (some "BLM001") (some 40) (some (-74))
      Option.none (some ⟨"BLM007", 40, -74⟩) []).correct_blmid = some "BLM007" :=
  c3_authority_disagreement_corrects {} "w3.pdf" "BLM001" (some 40) (some (-74))
    Option.none ⟨"BLM007", 40, -74⟩ (by decide) (by decide) (by decide)

/-- Counterexample for C5: for an entry with a missing latitude and an
upstream extraction error, the decision's error list is the extraction error
followed by the coordinate validator's error — not the coordinate validator's
error list alone. -/
theorem c5_counterexample :
    (Validator.validate_entry {} "scan.pdf" (some "BLM001") Option.none (some 0)
      Option.none Option.none ["ocr failed"]).errors =
      ["ocr failed", "Latitude is None"] ∧
    (Validator.validate_coordinates {} Option.none (some 0)).2 = ["Latitude is None"] ∧
    (Validator.validate_entry {} "scan.pdf" (some "BLM001") Option.none (some 0)
      Option.none Option.none ["ocr failed"]).errors ≠
      (Validator.validate_coordinates {} Option.none (some 0)).2 := by
  decide

/-- Claim C5 as amended: when the coordinates fail validation the decision is
FAILED, its errors are the entry's upstream extraction errors followed by the
coordinate validator's error list, no match flag is set, no correction is
flagged (the corrected identifier stays the echoed input identifier), and the
reference and authority lookup results do not affect the decision at all. -/
theorem c5_coordinate_gate (v : Validator) (pdf : String) (b : Option String)
    (lat lon : Option ℚ) (ex1 db1 ex2 db2 : Option BlmRecord) (errs : List String)
    (h : (v.validate_coordinates lat lon).1 = false) :
    (v.validate_entry pdf b lat lon ex1 db1 errs).errors =
      errs ++ (v.validate_coordinates lat lon).2 ∧
    decisionStatus (v.validate_entry pdf b lat lon ex1 db1 errs) = Status.failed ∧
    (v.validate_entry pdf b lat lon ex1 db1 errs).excel_match = false ∧
    (v.validate_entry pdf b lat lon ex1 db1 errs).database_match = false ∧
    (v.validate_entry pdf b lat lon ex1 db1 errs).correction_needed = false ∧
    (v.validate_entry pdf b lat lon ex1 db1 errs).correct_blmid = b ∧
    v.validate_entry pdf b lat lon ex1 db1 errs =
      v.validate_entry pdf b lat lon ex2 db2 errs := by
  have e1 := validate_entry_invalid_coords v pdf b lat lon ex1 db1 errs h
  have e2 := validate_entry_invalid_coords v pdf b lat lon ex2 db2 errs h
  rw [e1, e2]
  refine ⟨rfl, ?_, rfl, rfl, rfl, rfl, rfl⟩
  apply (decisionStatus_failed_iff _).mpr
  intro hx
  dsimp only at hx
  exact validate_coordinates_invalid_ne_nil v lat lon h (List.append_eq_nil.mp hx).2

/-- Witness for amended C5: an entry with a missing latitude and extraction
error "ocr failed" is FAILED with errors `["ocr failed", "Latitude is None"]`,
no flags, and identical decisions for two different lookup results. -/
theorem c5_coordinate_gate_witness :
    (Validator.validate_entry {} "w5.pdf" (some "BLM001") Option.none (some 0)
      Option.none Option.none ["ocr failed"]).errors =
      ["ocr failed"] ++ (Validator.validate_coordinates {} Option.none (some 0)).2 ∧
    decisionStatus (Validator.validate_entry {} "w5.pdf" (some "BLM001") Option.none
      (some 0) Option.none Option.none ["ocr failed"]) = Status.failed ∧
    (Validator.validate_entry {} "w5.pdf" (some "BLM001") Option.none (some 0)
      Option.none Option.none ["ocr failed"]).excel_match = false ∧
    (Validator.validate_entry {} "w5.pdf" (some "BLM001") Option.none (some 0)
      Option.none Option.none ["ocr failed"]).database_match = false ∧
    (Validator.validate_entry {} "w5.pdf" (some "BLM001") Option.none (some 0)
      Option.none Option.none ["ocr failed"]).correction_needed = false ∧
    (Validator.validate_entry {} "w5.pdf" (some "BLM001") Option.none (some 0)
      Option.none Option.none ["ocr failed"]).correct_blmid = some "BLM001" ∧
    Validator.validate_entry {} "w5.pdf" (some "BLM001") Option.none (some 0)
      Option.none Option.none ["ocr failed"] =
      Validator.validate_entry {} "w5.pdf" (some "BLM001") Option.none (some 0)
        (some ⟨"BLM009", 0, 0⟩) (some ⟨"BLM009", 0, 0⟩) ["ocr failed"] :=
  c5_coordinate_gate {} "w5.pdf" (some "BLM001") Option.none (some 0) Option.none
    Option.none (some ⟨"BLM009", 0, 0⟩) (some ⟨"BLM009", 0, 0⟩) ["ocr failed"]
    (by decide)

/-- Counterexample for C6: for an entry with valid coordinates, no reference
row, and an absent authority lookup, the recorded error is the source's
string "No matching BLMID found in database for these coordinates"; the
error list does not contain the claimed string "no matching identifier found
in reference or authority source for these coordinates". -/
theorem c6_counterexample :
    (Validator.validate_entry {} "scan.pdf" (some "BLM002") (some 10) (some 10)
      Option.none Option.none []).errors = [dbMissingMsg] ∧
    dbMissingMsg = "No matching BLMID found in database for these coordinates" ∧
    "no matching identifier found in reference or authority source for these coordinates" ∉
      (Validator.validate_entry {} "scan.pdf" (some "BLM002") (some 10) (some 10)
        Option.none Option.none []).errors := by
  decide

/-- Claim C6 as amended: for every entry with valid coordinates whose
authority (database) lookup is absent, the decision is FAILED and its errors
contain the string "No matching BLMID found in database for these
coordinates". -/
theorem c6_database_absent_fails (v : Validator) (pdf : String) (b : Option String)
    (lat lon : Option ℚ) (ex : Option BlmRecord) (errs : List String)
    (h : (v.validate_coordinates lat lon).1 = true) :
    decisionStatus (v.validate_entry pdf b lat lon ex Option.none errs) =
      Status.failed ∧
    dbMissingMsg ∈ (v.validate_entry pdf b lat lon ex Option.none errs).errors := by
  rw [validate_entry_valid_coords _ _ _ _ _ _ _ _ h, applyDatabase_none]
  constructor
  · apply (decisionStatus_failed_iff _).mpr
    dsimp only
    simp
  · dsimp only
    simp

/-- Witness for amended C6: the entry BLM002 at (10, 10) with no reference
row and an absent database lookup is FAILED and carries the source's
missing-BLMID error string. -/
theorem c6_database_absent_fails_witness :
    decisionStatus (Validator.validate_entry {} "w6.pdf" (some "BLM002") (some 10)
      (some 10) Option.none Option.none []) = Status.failed ∧
    dbMissingMsg ∈ (Validator.validate_entry {} "w6.pdf" (some "BLM002") (some 10)
      (some 10) Option.none Option.none []).errors :=
  c6_database_absent_fails {} "w6.pdf" (some "BLM002") (some 10) (some 10)
    Option.none [] (by decide)

theorem applyDatabase_excel_match (b : Option String) (db : Option BlmRecord)
    (r : ValidationResult) :
    (Validator.applyDatabase b db r).excel_match = r.excel_match := by
  unfold Validator.applyDatabase
  cases db with
  | none => rfl
  | some rec => dsimp only; split <;> rfl

theorem validate_entry_excel_none (v : Validator) (pdf : String) (b : Option String)
    (lat lon : Option ℚ) (db : Option BlmRecord) (errs : List String) :
    (v.validate_entry pdf b lat lon Option.none db errs).excel_match = false := by
  by_cases h : (v.validate_coordinates lat lon).1 = true
  · rw [validate_entry_valid_coords _ _ _ _ _ _ _ _ h, applyDatabase_excel_match]
    rfl
  · rw [validate_entry_invalid_coords _ _ _ _ _ _ _ _ (Bool.eq_false_iff.mpr h)]

/-- Counterexample for C4: the reference sheet holds the row
(BLM007, 40, -74); for the entry extracted as BLM001 at exactly (40, -74)
the engine's reference resolution — `find_by_blmid`, the only reference
lookup `batch_validate` performs — returns absent and the decision carries
`excel_match = false`, even though `find_by_coordinates` would have returned
a coordinate match carrying BLM007. -/
theorem c4_counterexample :
    ExcelHandler.find_by_blmid [⟨"BLM007", 40, -74⟩] "BLM001" = Option.none ∧
    ExcelHandler.find_by_coordinates [⟨"BLM007", 40, -74⟩] 40 (-74) 1 =
      some ⟨"BLM007", 40, -74⟩ ∧
    (Validator.processEntry { coordinate_tolerance := 1 }
      (ExcelHandler.find_by_blmid [⟨"BLM007", 40, -74⟩]) (fun _ _ _ => Option.none)
      { pdf_file := "scan.pdf", blmid := some "BLM001", latitude := some 40,
        longitude := some (-74) }).excel_match = false := by
  refine ⟨by decide, ?_, by decide⟩
  unfold ExcelHandler.find_by_coordinates
  apply List.find?_cons_of_pos
  dsimp only
  norm_num

/-- Claim C4 as amended: `ExcelHandler.find_by_coordinates` does return the
first reference row whose coordinates match within tolerance, carrying that
row's identifier (which may differ from the input identifier); but the
engine's reference resolution in `batch_validate` is `find_by_blmid` —
identifier lookup only — so for an identifier with no case-insensitive match
in the sheet the engine's reference lookup is absent and the decision's
`excel_match` stays false: the coordinate-based reference lookup is never
consulted by the engine. -/
theorem c4_coordinate_lookup_not_consulted (df : List BlmRecord) (b : String)
    (lat lon tol : ℚ)
    (hb : ∀ row ∈ df, pyUpper row.blmid ≠ pyUpper b)
    (hc : ∃ row ∈ df, |row.latitude - lat| ≤ tol ∧ |row.longitude - lon| ≤ tol) :
    ExcelHandler.find_by_blmid df b = Option.none ∧
    (∃ r, ExcelHandler.find_by_coordinates df lat lon tol = some r ∧ r ∈ df ∧
      |r.latitude - lat| ≤ tol ∧ |r.longitude - lon| ≤ tol) ∧
    ∀ (v : Validator) (fc : ℚ → ℚ → ℚ → Option BlmRecord) (pdf : String)
      (la lo : Option ℚ) (errs : List String),
      (v.processEntry (ExcelHandler.find_by_blmid df) fc
        { pdf_file := pdf, blmid := some b, latitude := la, longitude := lo,
          errors := errs }).excel_match = false := by
  have hfbn : ExcelHandler.find_by_blmid df b = Option.none := by
    unfold ExcelHandler.find_by_blmid
    rw [List.find?_eq_none]
    intro x hx
    simp only [beq_iff_eq]
    exact hb x hx
  refine ⟨hfbn, ?_, ?_⟩
  · have hsome : (df.find? (fun row =>
        decide (|row.latitude - lat| ≤ tol) &&
          decide (|row.longitude - lon| ≤ tol))).isSome := by
      rw [List.find?_isSome]
      obtain ⟨row, hrow, h1, h2⟩ := hc
      exact ⟨row, hrow, by simp [h1, h2]⟩
    obtain ⟨r, hr⟩ := Option.isSome_iff_exists.mp hsome
    have hp := List.find?_some hr
    simp only [Bool.and_eq_true, decide_eq_true_eq] at hp
    exact ⟨r, hr, List.mem_of_find?_eq_some hr, hp.1, hp.2⟩
  · intro v fc pdf la lo errs
    unfold Validator.processEntry
    dsimp only
    cases hst : strTruthy (some b) with
    | true =>
      simp only [hst, if_true, Option.getD_some, hfbn]
      exact validate_entry_excel_none v pdf (some b) la lo _ errs
    | false =>
      simp only [hst, Bool.false_eq_true, if_false]
      exact validate_entry_excel_none v pdf (some b) la lo _ errs

/-- Witness for amended C4: with the sheet [(BLM007, 40, -74)], identifier
BLM001 and point (40, -74) at tolerance 1, the identifier lookup is absent,
the coordinate lookup returns the BLM007 row, and the engine's decision has
no reference match flag. -/
theorem c4_coordinate_lookup_not_consulted_witness :
    ExcelHandler.find_by_blmid [⟨"BLM007", 40, -74⟩] "BLM001" = Option.none ∧
    (∃ r, ExcelHandler.find_by_coordinates [⟨"BLM007", 40, -74⟩] 40 (-74) 1 = some r ∧
      r ∈ [(⟨"BLM007", 40, -74⟩ : BlmRecord)] ∧
      |r.latitude - 40| ≤ 1 ∧ |r.longitude - (-74)| ≤ 1) ∧
    ∀ (v : Validator) (fc : ℚ → ℚ → ℚ → Option BlmRecord) (pdf : String)
      (la lo : Option ℚ) (errs : List String),
      (v.processEntry (ExcelHandler.find_by_blmid [⟨"BLM007", 40, -74⟩]) fc
        { pdf_file := pdf, blmid := some "BLM001", latitude := la, longitude := lo,
          errors := errs }).excel_match = false :=
  c4_coordinate_lookup_not_consulted [⟨"BLM007", 40, -74⟩] "BLM001" 40 (-74) 1
    (by decide)
    ⟨⟨"BLM007", 40, -74⟩, by simp, by constructor <;> norm_num⟩

theorem batchLoopE_error_aborts (v : Validator)
    (fb : String → Except String (Option BlmRecord))
    (fc : ℚ → ℚ → ℚ → Except String (Option BlmRecord))
    (e : Extraction) (post : List Extraction) (msg : String) :
    ∀ (pre : List Extraction) (s : Summary),
      (∀ x ∈ pre, ∃ r, v.processEntryE fb fc x = Except.ok r) →
      v.processEntryE fb fc e = Except.error msg →
      v.batchLoopE fb fc s (pre ++ e :: post) = Except.error msg := by
  intro pre
  induction pre with
  | nil =>
    intro s _ he
    simp only [List.nil_append]
    unfold Validator.batchLoopE
    rw [he]
  | cons x xs ih =>
    intro s hpre he
    obtain ⟨r, hr⟩ := hpre x (List.mem_cons_self x xs)
    simp only [List.cons_append]
    unfold Validator.batchLoopE
    rw [hr]
    exact ih _ (fun y hy => hpre y (List.mem_cons_of_mem x hy)) he

/-- Counterexample for C2: a batch of three entries whose database resolver
raises ("boom") on the second entry makes `batch_validate` propagate the
exception: the result is the error, not a summary — no FAILED decision is
recorded for entry 2 and no decisions are produced for entries 1 and 3. -/
theorem c2_counterexample :
    Validator.batch_validateE {} (fun _ => Except.ok Option.none)
      (fun la _ _ => if la == 2 then Except.error "boom" else Except.ok Option.none)
      [{ pdf_file := "p1", blmid := some "BLM001", latitude := some 40,
         longitude := some (-74) },
       { pdf_file := "p2", blmid := some "BLM002", latitude := some 2,
         longitude := some 2 },
       { pdf_file := "p3", blmid := some "BLM003", latitude := some 41,
         longitude := some (-75) }] = Except.error "boom" := rfl

/-- Claim C2 as amended: `batch_validate` has no per-entry exception handling;
when a resolver call for some entry raises (and every earlier entry's
resolver calls return normally), the exception propagates out of
`batch_validate` and aborts the whole batch — no summary is produced and no
decision is recorded for any entry, instead of a FAILED decision and
continuation. -/
theorem c2_resolver_exception_aborts_batch (v : Validator)
    (fb : String → Except String (Option BlmRecord))
    (fc : ℚ → ℚ → ℚ → Except String (Option BlmRecord))
    (pre : List Extraction) (e : Extraction) (post : List Extraction) (msg : String)
    (hpre : ∀ x ∈ pre, ∃ r, v.processEntryE fb fc x = Except.ok r)
    (he : v.processEntryE fb fc e = Except.error msg) :
    v.batch_validateE fb fc (pre ++ e :: post) = Except.error msg := by
  unfold Validator.batch_validateE
  exact batchLoopE_error_aborts v fb fc e post msg pre _ hpre he

/-- Witness for amended C2: in a three-entry batch whose database resolver
raises "db connection lost" on the second entry, the batch aborts with that
exception. -/
theorem c2_resolver_exception_aborts_batch_witness :
    Validator.batch_validateE {} (fun _ => Except.ok Option.none)
      (fun la _ _ =>
        if la == 7 then Except.error "db connection lost" else Except.ok Option.none)
      ([{ pdf_file := "q1", blmid := some "BLM001", latitude := some 40,
          longitude := some (-74) }] ++
        { pdf_file := "q2", blmid := some "BLM002", latitude := some 7,
          longitude := some 7 } ::
        [{ pdf_file := "q3", blmid := some "BLM003", latitude := some 41,
           longitude := some (-75) }]) = Except.error "db connection lost" :=
  c2_resolver_exception_aborts_batch {} (fun _ => Except.ok Option.none)
    (fun la _ _ =>
      if la == 7 then Except.error "db connection lost" else Except.ok Option.none)
    [{ pdf_file := "q1", blmid := some "BLM001", latitude := some 40,
       longitude := some (-74) }]
    { pdf_file := "q2", blmid := some "BLM002", latitude := some 7,
      longitude := some 7 }
    [{ pdf_file := "q3", blmid := some "BLM003", latitude := some 41,
       longitude := some (-75) }]
    "db connection lost"
    (by
      intro x hx
      rw [List.mem_singleton] at hx
      subst hx
      exact ⟨_, rfl⟩)
    rfl

theorem processEntryE_lift (v : Validator) (fb : String → Option BlmRecord)
    (fc : ℚ → ℚ → ℚ → Option BlmRecord) (e : Extraction) :
    v.processEntryE (fun b => Except.ok (fb b)) (fun la lo t => Except.ok (fc la lo t)) e =
      Except.ok (v.processEntry fb fc e) := by
  unfold Validator.processEntryE Validator.processEntry
  cases hst : strTruthy e.blmid <;>
    cases hla : e.latitude <;>
      cases hlo : e.longitude <;>
        simp [hst, hla, hlo, Except.pure, Except.bind, bind, pure]

theorem batchLoopE_lift (v : Validator) (fb : String → Option BlmRecord)
    (fc : ℚ → ℚ → ℚ → Option BlmRecord) (l : List Extraction) : ∀ (s : Summary),
    v.batchLoopE (fun b => Except.ok (fb b)) (fun la lo t => Except.ok (fc la lo t)) s l =
      Except.ok (l.foldl (v.batchStep fb fc) s) := by
  induction l with
  | nil => intro s; rfl
  | cons e rest ih =>
    intro s
    rw [List.foldl_cons]
    unfold Validator.batchLoopE
    rw [processEntryE_lift]
    exact ih _

/-- When every collaborator call returns normally, the exception-aware
embedding of `batch_validate` agrees with the pure one. -/
theorem batch_validateE_agrees (v : Validator) (fb : String → Option BlmRecord)
    (fc : ℚ → ℚ → ℚ → Option BlmRecord) (entries : List Extraction) :
    v.batch_validateE (fun b => Except.ok (fb b)) (fun la lo t => Except.ok (fc la lo t))
      entries = Except.ok (v.batch_validate fb fc entries) := by
  unfold Validator.batch_validateE Validator.batch_validate
  exact batchLoopE_lift v fb fc entries _
